import Mathlib

/-!
Shallow embedding of the washedmcp core: the token accountant
(src/token_counter.py) and the search orchestrator (src/searcher.py).

The token-counting backend is chosen once at module load: when the
tiktoken package imports, HAS_TIKTOKEN is true and a fixed encoder is
used; otherwise a character-based estimator.  We model the backend as a
record carrying the capability flag and the encoder (as the function
giving the length of the encoding of a text, which is what the code
consumes).  The external collaborators of the orchestrator
(src.embedder.embed_query, src.database.init_db / search / get_stats,
the filesystem) are not part of this repository; they are modelled as an
explicit environment of fallible functions, an Except.error outcome
standing for a raised exception, which the orchestrator catches.
-/

namespace WashedMCP

/-- Token-counting backend: the HAS_TIKTOKEN capability flag fixed at
process start, and the encoder, modelled by the token count it assigns
to a text (the code only ever takes the length of an encoding). -/
structure Backend where
  hasTiktoken : Bool
  encode : String → Nat

/-- Embedding of count_tokens (token_counter.py, lines 21-41): 0 for
empty text; the encoder length when tiktoken is available; otherwise
the floor of the character length divided by 4. -/
def count_tokens (b : Backend) (text : String) : Nat :=
  if text = "" then 0
  else if b.hasTiktoken then b.encode text
  else text.length / 4

/-- Embedding of count_tokens_batch (token_counter.py, lines 44-54):
the sum of count_tokens over the list. -/
def count_tokens_batch (b : Backend) (texts : List String) : Nat :=
  (texts.map fun t => count_tokens b t).sum

/-- The record returned by calculate_savings.  Token fields are Python
ints; percent_saved is a Python float computed by round(x, 1), modelled
here as a rational rounded to one decimal place. -/
structure TokenStats where
  tokens_used : Int
  tokens_without_search : Int
  tokens_saved : Int
  percent_saved : ℚ
  deriving Repr, DecidableEq

/-- Rounding a value to one decimal place, the model of round(x, 1). -/
def roundTenth (q : ℚ) : ℚ := (round (q * 10) : ℤ) / 10

/-- Embedding of calculate_savings (token_counter.py, lines 57-83). -/
def calculate_savings (search_result_tokens full_file_tokens : Int) : TokenStats :=
  let tokens_saved : Int := max 0 (full_file_tokens - search_result_tokens)
  let percent_saved : ℚ :=
    if 0 < full_file_tokens then
      roundTenth ((tokens_saved : ℚ) / (full_file_tokens : ℚ) * 100)
    else 0
  { tokens_used := search_result_tokens
    tokens_without_search := full_file_tokens
    tokens_saved := tokens_saved
    percent_saved := percent_saved }

/-- A filesystem: a path reads to some text, or fails (missing file,
unreadable, or not decodable), which open/read signals by raising. -/
abbrev FileSystem := String → Option String

/-- Embedding of estimate_file_tokens (token_counter.py, lines 86-101):
count the tokens of the file contents, 0 when the read fails. -/
def estimate_file_tokens (b : Backend) (fs : FileSystem) (file_path : String) : Nat :=
  match fs file_path with
  | some content => count_tokens b content
  | none => 0

/-- One retrieved code unit as the orchestrator sees it: an arbitrary
record from the vector index.  The orchestrator only ever reads the
keys "code" and "file_path", each with r.get and a default, so only
those two (possibly absent) fields are modelled; the remaining metadata
is passed through unmodified and never inspected. -/
structure SearchResult where
  code : Option String
  file_path : Option String
  deriving Repr, DecidableEq

/-- The statistics record returned by get_stats; the orchestrator reads
its total_functions entry. -/
structure DbStats where
  total_functions : Int
  deriving Repr, DecidableEq

/-- A query embedding, opaque to the orchestrator. -/
abbrev Embedding := List ℚ

/-- The external collaborators consumed by searcher.py, plus the
token-counting backend and the filesystem.  Each fallible collaborator
returns Except; Except.error stands for a raised exception. -/
structure Env where
  init_db : String → Except String Unit
  embed_query : String → Except String Embedding
  db_search : Embedding → Int → Except String (List SearchResult)
  path_exists : String → Bool
  get_stats : Except String DbStats
  read_file : FileSystem
  backend : Backend

/-- The body of the try block of search_code (searcher.py, lines 25-36):
initialize the database, embed the query, run the nearest-neighbor
search. -/
def searchSteps (env : Env) (query : String) (persist_path : String) (top_k : Int) :
    Except String (List SearchResult) := do
  let _ ← env.init_db persist_path
  let emb ← env.embed_query query
  env.db_search emb top_k

/-- Embedding of search_code (searcher.py, lines 9-39): run the steps,
catching any exception and returning the empty list in that case. -/
def search_code (env : Env) (query : String) (persist_path : String) (top_k : Int) :
    List SearchResult :=
  match searchSteps env query persist_path top_k with
  | .ok results => results
  | .error _ => []

/-- The snippets joined with a newline in result order
(searcher.py, line 70). -/
def joinedCode (results : List SearchResult) : String :=
  String.intercalate "\n" (results.map fun r => r.code.getD "")

/-- The file paths of the results that carry a truthy (present and
non-empty) "file_path" key, before deduplication (searcher.py,
line 75: the generator feeding list(set(...))). -/
def rawPaths (results : List SearchResult) : List String :=
  results.filterMap fun r =>
    match r.file_path with
    | some fp => if fp = "" then none else some fp
    | none => none

/-- The distinct file paths of the results (searcher.py, line 75:
list(set(...))).  Python iterates the set in an unspecified order; the
code only takes the sum of estimate_file_tokens over it and its length,
both of which are order-independent, so a deduplicated list is a
faithful model. -/
def resultPaths (results : List SearchResult) : List String :=
  (rawPaths results).dedup

/-- The sum of estimate_file_tokens over the distinct file paths
(searcher.py, line 76). -/
def tokensWithoutSearchRaw (env : Env) (results : List SearchResult) : Int :=
  ((resultPaths results).map fun fp =>
    (estimate_file_tokens env.backend env.read_file fp : Int)).sum

/-- Embedding of search_code_with_stats (searcher.py, lines 42-87). -/
def search_code_with_stats (env : Env) (query : String) (persist_path : String)
    (top_k : Int) : List SearchResult × TokenStats :=
  let results := search_code env query persist_path top_k
  if results = [] then
    (results, { tokens_used := 0, tokens_without_search := 0,
                tokens_saved := 0, percent_saved := 0 })
  else
    let tokens_used : Int := (count_tokens env.backend (joinedCode results) : Int)
    let tws0 : Int := tokensWithoutSearchRaw env results
    let tokens_without_search : Int :=
      if tws0 = 0 then 500 * max 3 ((resultPaths results).length : Int) else tws0
    (results, calculate_savings tokens_used tokens_without_search)

/-- Embedding of is_indexed (searcher.py, lines 89-108): false at once
when the path does not exist; otherwise initialize the database and
report whether the stats show a strictly positive item count, any
exception collapsing to false. -/
def is_indexed (env : Env) (persist_path : String) : Bool :=
  if env.path_exists persist_path then
    match (do
      let _ ← env.init_db persist_path
      let s ← env.get_stats
      pure (decide (0 < s.total_functions)) : Except String Bool) with
    | .ok b => b
    | .error _ => false
  else false

/-- The character-estimator backend: tiktoken failed to import. -/
def estimatorBackend : Backend := { hasTiktoken := false, encode := fun _ => 0 }

/-- An environment whose database initialization raises. -/
def envInitFail : Env :=
  { init_db := fun _ => .error "db unavailable"
    embed_query := fun _ => .ok []
    db_search := fun _ _ => .ok []
    path_exists := fun _ => true
    get_stats := .error "no stats"
    read_file := fun _ => none
    backend := estimatorBackend }

/-- An environment returning one result whose file cannot be read. -/
def envOneResult : Env :=
  { init_db := fun _ => .ok ()
    embed_query := fun _ => .ok []
    db_search := fun _ _ => .ok [{ code := some "ab", file_path := some "f.py" }]
    path_exists := fun _ => true
    get_stats := .error "down"
    read_file := fun _ => none
    backend := estimatorBackend }

/-- An environment returning one result whose file reads to a sixteen
character text (four estimated tokens). -/
def envReadable : Env :=
  { init_db := fun _ => .ok ()
    embed_query := fun _ => .ok []
    db_search := fun _ _ => .ok [{ code := some "return n", file_path := some "g.py" }]
    path_exists := fun _ => true
    get_stats := .error "down"
    read_file := fun _ => some "0123456789abcdef"
    backend := estimatorBackend }

/-- An environment whose persistence path does not exist. -/
def envNoPath : Env :=
  { init_db := fun _ => .ok ()
    embed_query := fun _ => .ok []
    db_search := fun _ _ => .ok []
    path_exists := fun _ => false
    get_stats := .ok { total_functions := 5 }
    read_file := fun _ => none
    backend := estimatorBackend }

/-- An environment with an existing path and five indexed functions. -/
def envIndexed : Env :=
  { init_db := fun _ => .ok ()
    embed_query := fun _ => .ok []
    db_search := fun _ _ => .ok []
    path_exists := fun _ => true
    get_stats := .ok { total_functions := 5 }
    read_file := fun _ => none
    backend := estimatorBackend }

/-- A filesystem on which every read fails. -/
def emptyFS : FileSystem := fun _ => none

/-- Bind on a successful Except value runs the continuation. -/
@[simp] theorem except_ok_bind {α β : Type} (a : α) (f : α → Except String β) :
    (Except.ok a >>= f : Except String β) = f a := rfl

/-- Bind on a failed Except value keeps the failure. -/
@[simp] theorem except_error_bind {α β : Type} (e : String) (f : α → Except String β) :
    ((Except.error e : Except String α) >>= f) = Except.error e := rfl

/-- Map over a successful Except value applies the function. -/
@[simp] theorem except_map_ok {α β : Type} (f : α → β) (a : α) :
    (f <$> (Except.ok a : Except String α)) = Except.ok (f a) := rfl

/-- Map over a failed Except value keeps the failure. -/
@[simp] theorem except_map_error {α β : Type} (f : α → β) (e : String) :
    (f <$> (Except.error e : Except String α) : Except String β) = Except.error e := rfl

/-- Under the character estimator, count_tokens is length divided by 4,
also on the empty string. -/
theorem count_tokens_estimator (b : Backend) (h : b.hasTiktoken = false)
    (t : String) : count_tokens b t = t.length / 4 := by
  by_cases ht : t = ""
  · subst ht; simp [count_tokens]
  · simp [count_tokens, ht, h]

/-- round is monotone, via its floor characterization. -/
theorem round_le_round_of_le {a b : ℚ} (h : a ≤ b) : round a ≤ round b := by
  rw [round_eq, round_eq]
  exact Int.floor_mono (by linarith)

/-- roundTenth preserves nonnegativity. -/
theorem roundTenth_nonneg {q : ℚ} (h : 0 ≤ q) : 0 ≤ roundTenth q := by
  unfold roundTenth
  have h1 : (0 : ℤ) ≤ round (q * 10) := by
    have := round_le_round_of_le (show (0 : ℚ) ≤ q * 10 by positivity)
    simpa using this
  positivity

/-- roundTenth maps values at most 100 to values at most 100. -/
theorem roundTenth_le_hundred {q : ℚ} (h : q ≤ 100) : roundTenth q ≤ 100 := by
  unfold roundTenth
  have h1 : round (q * 10) ≤ 1000 := by
    have h2 := round_le_round_of_le (show q * 10 ≤ 1000 by linarith)
    have h3 : round ((1000 : ℚ)) = 1000 := by norm_num
    rw [h3] at h2
    exact h2
  have h4 : ((round (q * 10) : ℤ) : ℚ) ≤ 1000 := by exact_mod_cast h1
  linarith

/-- The sum over the Finset of distinct paths agrees with the sum the
code takes over its deduplicated list. -/
theorem tokensWithoutSearchRaw_eq_sum_toFinset (env : Env) (rs : List SearchResult) :
    tokensWithoutSearchRaw env rs =
      (rawPaths rs).toFinset.sum
        (fun fp => (estimate_file_tokens env.backend env.read_file fp : Int)) := by
  unfold tokensWithoutSearchRaw resultPaths
  have hfs : (rawPaths rs).dedup.toFinset = (rawPaths rs).toFinset := by
    ext a
    simp [List.mem_dedup]
  rw [← hfs]
  exact (List.sum_toFinset _ (List.nodup_dedup _)).symm

/-- The cardinality of the Finset of distinct paths agrees with the
length of the deduplicated list the code takes. -/
theorem card_toFinset_rawPaths (rs : List SearchResult) :
    (rawPaths rs).toFinset.card = (resultPaths rs).length := by
  unfold resultPaths
  exact List.card_toFinset _

/-- The length of a joined string is the sum of the lengths. -/
theorem length_join_eq_sum (texts : List String) :
    (String.join texts).length = (texts.map String.length).sum := by
  induction texts with
  | nil => rfl
  | cons t ts ih =>
      simp only [String.join_eq, String.length, List.map_cons, List.flatten_cons,
        List.length_append, List.sum_cons] at *
      simp [ih]

/-- Sums of floored quarters are at most the floored quarter of the sum. -/
theorem sum_div_four_le (ls : List ℕ) :
    (ls.map fun n => n / 4).sum ≤ ls.sum / 4 := by
  induction ls with
  | nil => simp
  | cons n ns ih =>
      simp only [List.map_cons, List.sum_cons]
      calc n / 4 + (ns.map fun n => n / 4).sum
          ≤ n / 4 + ns.sum / 4 := Nat.add_le_add_left ih _
        _ ≤ (n + ns.sum) / 4 := Nat.add_div_le_add_div _ _ _

/-- On a non-empty result list, search_code_with_stats takes the else
branch of its guard. -/
theorem search_with_stats_nonempty (env : Env) (query persist_path : String)
    (top_k : Int) (hne : search_code env query persist_path top_k ≠ []) :
    search_code_with_stats env query persist_path top_k =
      (search_code env query persist_path top_k,
       calculate_savings
         (count_tokens env.backend (joinedCode (search_code env query persist_path top_k)) : Int)
         (if tokensWithoutSearchRaw env (search_code env query persist_path top_k) = 0
          then 500 * max 3 ((resultPaths (search_code env query persist_path top_k)).length : Int)
          else tokensWithoutSearchRaw env (search_code env query persist_path top_k))) := by
  unfold search_code_with_stats
  rw [if_neg hne]

/-- C2: for used, without >= 0, calculate_savings returns the inputs in
tokens_used and tokens_without_search, tokens_saved = max 0 (without -
used), and percent_saved is the savings ratio times 100 rounded to one
decimal, lying in [0, 100], when without > 0, and 0 when without <= 0. -/
theorem calculate_savings_spec (used without : Int) (hu : 0 ≤ used) (hw : 0 ≤ without) :
    (calculate_savings used without).tokens_used = used ∧
    (calculate_savings used without).tokens_without_search = without ∧
    (calculate_savings used without).tokens_saved = max 0 (without - used) ∧
    (0 < without →
      (calculate_savings used without).percent_saved =
        roundTenth (((max 0 (without - used) : Int) : ℚ) / (without : ℚ) * 100) ∧
      0 ≤ (calculate_savings used without).percent_saved ∧
      (calculate_savings used without).percent_saved ≤ 100) ∧
    (without ≤ 0 → (calculate_savings used without).percent_saved = 0) := by
  refine ⟨rfl, rfl, rfl, ?_, ?_⟩
  · intro hpos
    have hval : (calculate_savings used without).percent_saved =
        roundTenth (((max 0 (without - used) : Int) : ℚ) / (without : ℚ) * 100) := by
      simp only [calculate_savings, if_pos hpos]
    have hs0 : (0 : ℚ) ≤ ((max 0 (without - used) : Int) : ℚ) := by
      exact_mod_cast le_max_left 0 (without - used)
    have hw0 : (0 : ℚ) < (without : ℚ) := by exact_mod_cast hpos
    have hq0 : 0 ≤ ((max 0 (without - used) : Int) : ℚ) / (without : ℚ) * 100 := by
      positivity
    have hsw : (max 0 (without - used) : Int) ≤ without := max_le hw (by linarith)
    have hq1 : ((max 0 (without - used) : Int) : ℚ) / (without : ℚ) * 100 ≤ 100 := by
      have hswq : ((max 0 (without - used) : Int) : ℚ) ≤ (without : ℚ) := by
        exact_mod_cast hsw
      rw [div_mul_eq_mul_div, div_le_iff₀ hw0]
      nlinarith
    exact ⟨hval, hval ▸ roundTenth_nonneg hq0, hval ▸ roundTenth_le_hundred hq1⟩
  · intro hle
    have hnp : ¬ 0 < without := not_lt.mpr hle
    simp only [calculate_savings, if_neg hnp]

/-- C2 witness: the spec example, savings of 150 used against 2000. -/
theorem calculate_savings_spec_witness :
    (calculate_savings 150 2000).tokens_saved = max 0 (2000 - 150) :=
  (calculate_savings_spec 150 2000 (by norm_num) (by norm_num)).2.2.1

/-- C6 counterexample: under the character estimator the batch count of
two two-character strings is 0, while the count of their concatenation
is 1, so the sum does not equal the count of the concatenation. -/
theorem count_tokens_batch_ne_concat :
    count_tokens_batch estimatorBackend ["aa", "aa"] = 0 ∧
    count_tokens estimatorBackend (String.join ["aa", "aa"]) = 1 ∧
    count_tokens_batch estimatorBackend ["aa", "aa"] ≠
      count_tokens estimatorBackend (String.join ["aa", "aa"]) := by
  refine ⟨by decide, by decide, by decide⟩

/-- C6 (amended): count_tokens_batch is the sum of count_tokens over
the elements; under the character estimator that sum is at most the
count of the concatenation (equality can fail because flooring by 4 in
each element discards remainders that the concatenation keeps). -/
theorem count_tokens_batch_spec (b : Backend) (texts : List String) :
    count_tokens_batch b texts = (texts.map fun t => count_tokens b t).sum ∧
    (b.hasTiktoken = false →
      count_tokens_batch b texts ≤ count_tokens b (String.join texts)) := by
  refine ⟨rfl, ?_⟩
  intro h
  unfold count_tokens_batch
  rw [count_tokens_estimator b h]
  calc (texts.map fun t => count_tokens b t).sum
      = (texts.map fun t => t.length / 4).sum := by
        simp only [count_tokens_estimator b h]
    _ ≤ (texts.map String.length).sum / 4 := by
        have := sum_div_four_le (texts.map String.length)
        simpa [List.map_map, Function.comp] using this
    _ = (String.join texts).length / 4 := by rw [length_join_eq_sum]

/-- C6 witness: the amended inequality at a concrete batch under the
character estimator. -/
theorem count_tokens_batch_spec_witness :
    count_tokens_batch estimatorBackend ["aa", "aa"] ≤
      count_tokens estimatorBackend (String.join ["aa", "aa"]) :=
  (count_tokens_batch_spec estimatorBackend ["aa", "aa"]).2 rfl

/-- C7: count_tokens is nonnegative, is 0 on the empty string, and is
the floor of the character length divided by 4 when the accurate
tokenizer is unavailable. -/
theorem count_tokens_spec (b : Backend) :
    (∀ t, 0 ≤ count_tokens b t) ∧ count_tokens b "" = 0 ∧
    (b.hasTiktoken = false → ∀ t, count_tokens b t = t.length / 4) :=
  ⟨fun _ => Nat.zero_le _, by simp [count_tokens], fun h t => count_tokens_estimator b h t⟩

/-- C7 witness: a six-character text counts as one token under the
character estimator. -/
theorem count_tokens_spec_witness : count_tokens estimatorBackend "abcdef" = 1 := by
  have h := (count_tokens_spec estimatorBackend).2.2 rfl "abcdef"
  exact h.trans (by decide)

/-- C8: estimate_file_tokens returns 0 when the read fails and the
token count of the contents when the read succeeds; it is a total
function, so it never raises. -/
theorem estimate_file_tokens_spec (b : Backend) (fs : FileSystem) (path : String) :
    (fs path = none → estimate_file_tokens b fs path = 0) ∧
    (∀ content, fs path = some content →
      estimate_file_tokens b fs path = count_tokens b content) := by
  constructor
  · intro h
    simp [estimate_file_tokens, h]
  · intro c h
    simp [estimate_file_tokens, h]

/-- C8 witness: a missing file estimates to 0 tokens. -/
theorem estimate_file_tokens_spec_witness :
    estimate_file_tokens estimatorBackend emptyFS "missing.py" = 0 :=
  (estimate_file_tokens_spec estimatorBackend emptyFS "missing.py").1 rfl

/-- C10: under the character estimator every non-empty text of fewer
than four characters counts as 0 tokens, and consequently
search_code_with_stats can report tokens_used = 0 while returning a
result whose code snippet is non-empty. -/
theorem count_tokens_short_text :
    (∀ b : Backend, b.hasTiktoken = false → ∀ t : String, t ≠ "" → t.length < 4 →
      count_tokens b t = 0) ∧
    ((search_code_with_stats envOneResult "q" "p" 5).2.tokens_used = 0 ∧
      ∃ r ∈ (search_code_with_stats envOneResult "q" "p" 5).1, r.code.getD "" ≠ "") := by
  refine ⟨?_, by decide, ?_⟩
  · intro b h t _ hlen
    rw [count_tokens_estimator b h]
    exact Nat.div_eq_of_lt hlen
  · exact ⟨{ code := some "ab", file_path := some "f.py" }, by decide, by decide⟩

/-- C10 witness: a two-character text counts as 0 tokens under the
character estimator. -/
theorem count_tokens_short_text_witness : count_tokens estimatorBackend "ab" = 0 :=
  count_tokens_short_text.1 estimatorBackend rfl "ab" (by decide) (by decide)

/-- C1: search_code converts a failure of database initialization,
query embedding, or the nearest-neighbor search into the empty result
list, and passes a fully successful pipeline through unchanged; as a
total function it never propagates an exception. -/
theorem search_code_catches_errors (env : Env) (query persist_path : String)
    (top_k : Int) :
    (∀ e, env.init_db persist_path = .error e →
      search_code env query persist_path top_k = []) ∧
    (∀ e, env.embed_query query = .error e →
      search_code env query persist_path top_k = []) ∧
    (∀ e emb, env.embed_query query = .ok emb → env.db_search emb top_k = .error e →
      search_code env query persist_path top_k = []) ∧
    (∀ rs, searchSteps env query persist_path top_k = .ok rs →
      search_code env query persist_path top_k = rs) := by
  refine ⟨?_, ?_, ?_, ?_⟩
  · intro e he
    simp [search_code, searchSteps, he]
  · intro e he
    cases hinit : env.init_db persist_path with
    | ok u => simp [search_code, searchSteps, hinit, he]
    | error e2 => simp [search_code, searchSteps, hinit]
  · intro e emb hemb hdb
    cases hinit : env.init_db persist_path with
    | ok u => simp [search_code, searchSteps, hinit, hemb, hdb]
    | error e2 => simp [search_code, searchSteps, hinit]
  · intro rs hok
    simp [search_code, hok]

/-- C1 witness: a failing database initialization yields the empty
result list. -/
theorem search_code_catches_errors_witness : search_code envInitFail "q" "p" 5 = [] :=
  (search_code_catches_errors envInitFail "q" "p" 5).1 "db unavailable" rfl

/-- C5: is_indexed is false when the path does not exist, and then its
value does not depend on the database collaborators at all (no
initialization is consulted); when the path exists it is true exactly
when initialization succeeds and the stats report a strictly positive
total_functions; a failing initialization or stats retrieval collapses
to false; as a total function it never raises. -/
theorem is_indexed_spec (env : Env) (persist_path : String) :
    (env.path_exists persist_path = false →
      ∀ dbInit stats,
        is_indexed { env with init_db := dbInit, get_stats := stats } persist_path
          = false) ∧
    (env.path_exists persist_path = true →
      (is_indexed env persist_path = true ↔
        env.init_db persist_path = .ok () ∧
        ∃ s, env.get_stats = .ok s ∧ 0 < s.total_functions)) ∧
    (∀ e, env.init_db persist_path = .error e →
      is_indexed env persist_path = false) ∧
    (∀ e, env.get_stats = .error e → is_indexed env persist_path = false) := by
  refine ⟨?_, ?_, ?_, ?_⟩
  · intro hpe dbInit stats
    simp [is_indexed, hpe]
  · intro hpe
    cases hinit : env.init_db persist_path with
    | error e =>
        simp [is_indexed, hpe, hinit]
    | ok u =>
        cases hstats : env.get_stats with
        | error e => simp [is_indexed, hpe, hinit, hstats]
        | ok s => simp [is_indexed, hpe, hinit, hstats]
  · intro e hinit
    cases hpe : env.path_exists persist_path with
    | false => simp [is_indexed, hpe]
    | true => simp [is_indexed, hpe, hinit]
  · intro e hstats
    cases hpe : env.path_exists persist_path with
    | false => simp [is_indexed, hpe]
    | true =>
        cases hinit : env.init_db persist_path with
        | error e2 => simp [is_indexed, hpe, hinit]
        | ok u => simp [is_indexed, hpe, hinit, hstats]

/-- C5 witness: a missing path probes false, and an existing path with
five indexed functions probes true. -/
theorem is_indexed_spec_witness :
    is_indexed envNoPath "p" = false ∧ is_indexed envIndexed "p" = true := by
  constructor
  · have h := (is_indexed_spec envNoPath "p").1 rfl envNoPath.init_db envNoPath.get_stats
    simpa using h
  · exact ((is_indexed_spec envIndexed "p").2.1 rfl).mpr
      ⟨rfl, ⟨{ total_functions := 5 }, rfl, by decide⟩⟩

/-- C9: when the underlying search yields no results,
search_code_with_stats returns the empty list and the all-zero
statistics record. -/
theorem search_with_stats_empty (env : Env) (query persist_path : String)
    (top_k : Int) (h : search_code env query persist_path top_k = []) :
    search_code_with_stats env query persist_path top_k =
      ([], { tokens_used := 0, tokens_without_search := 0,
             tokens_saved := 0, percent_saved := 0 }) := by
  simp [search_code_with_stats, h]

/-- C9 witness: a failing pipeline yields the empty list and all-zero
statistics. -/
theorem search_with_stats_empty_witness :
    search_code_with_stats envInitFail "q" "p" 5 =
      ([], { tokens_used := 0, tokens_without_search := 0,
             tokens_saved := 0, percent_saved := 0 }) :=
  search_with_stats_empty envInitFail "q" "p" 5 (by decide)

/-- C3 counterexample: one result whose file read fails makes the sum
over the distinct paths 0, yet the returned tokens_without_search is
the heuristic 1500, so it is not that sum. -/
theorem search_with_stats_tws_not_sum :
    (rawPaths (search_code envOneResult "q" "p" 5)).toFinset.sum
        (fun fp => (estimate_file_tokens envOneResult.backend envOneResult.read_file fp : Int))
      = 0 ∧
    (search_code_with_stats envOneResult "q" "p" 5).2.tokens_without_search = 1500 ∧
    (search_code_with_stats envOneResult "q" "p" 5).2.tokens_without_search ≠
      (rawPaths (search_code envOneResult "q" "p" 5)).toFinset.sum
        (fun fp => (estimate_file_tokens envOneResult.backend envOneResult.read_file fp : Int)) := by
  have hsum : (rawPaths (search_code envOneResult "q" "p" 5)).toFinset.sum
      (fun fp => (estimate_file_tokens envOneResult.backend envOneResult.read_file fp : Int))
      = 0 := by
    rw [← tokensWithoutSearchRaw_eq_sum_toFinset]
    decide
  refine ⟨hsum, by decide, ?_⟩
  rw [hsum]
  decide

/-- C3 (amended): on a non-empty result list, tokens_used is the token
count of the snippets joined with a newline in result order, and,
whenever the sum of estimate_file_tokens over the distinct result file
paths is nonzero, tokens_without_search is exactly that sum (each
distinct path counted once); when the sum is zero the heuristic of C4
replaces it. -/
theorem search_with_stats_token_accounting (env : Env) (query persist_path : String)
    (top_k : Int) (hne : search_code env query persist_path top_k ≠ []) :
    ((search_code_with_stats env query persist_path top_k).2.tokens_used =
      (count_tokens env.backend (String.intercalate "\n"
        ((search_code env query persist_path top_k).map fun r => r.code.getD "")) : Int)) ∧
    ((rawPaths (search_code env query persist_path top_k)).toFinset.sum
        (fun fp => (estimate_file_tokens env.backend env.read_file fp : Int)) ≠ 0 →
      (search_code_with_stats env query persist_path top_k).2.tokens_without_search =
        (rawPaths (search_code env query persist_path top_k)).toFinset.sum
          (fun fp => (estimate_file_tokens env.backend env.read_file fp : Int))) := by
  constructor
  · rw [search_with_stats_nonempty env query persist_path top_k hne]
    rfl
  · intro hsum
    rw [← tokensWithoutSearchRaw_eq_sum_toFinset] at hsum ⊢
    rw [search_with_stats_nonempty env query persist_path top_k hne]
    show (if tokensWithoutSearchRaw env (search_code env query persist_path top_k) = 0
          then 500 * max 3 ((resultPaths (search_code env query persist_path top_k)).length : Int)
          else tokensWithoutSearchRaw env (search_code env query persist_path top_k)) = _
    rw [if_neg hsum]

/-- C3 witness: one readable sixteen-character file gives a nonzero sum
that is returned unchanged in tokens_without_search. -/
theorem search_with_stats_token_accounting_witness :
    (search_code_with_stats envReadable "q" "p" 5).2.tokens_without_search =
      (rawPaths (search_code envReadable "q" "p" 5)).toFinset.sum
        (fun fp => (estimate_file_tokens envReadable.backend envReadable.read_file fp : Int)) :=
  (search_with_stats_token_accounting envReadable "q" "p" 5 (by decide)).2
    (by rw [← tokensWithoutSearchRaw_eq_sum_toFinset]; decide)

/-- C4: on a non-empty result list whose distinct file paths sum to 0
estimated tokens, tokens_without_search is the heuristic 500 times the
maximum of 3 and the number of distinct file paths. -/
theorem search_with_stats_heuristic (env : Env) (query persist_path : String)
    (top_k : Int) (hne : search_code env query persist_path top_k ≠ [])
    (hzero : (rawPaths (search_code env query persist_path top_k)).toFinset.sum
      (fun fp => (estimate_file_tokens env.backend env.read_file fp : Int)) = 0) :
    (search_code_with_stats env query persist_path top_k).2.tokens_without_search =
      500 * max 3 (((rawPaths (search_code env query persist_path top_k)).toFinset.card : Int)) := by
  have hz : tokensWithoutSearchRaw env (search_code env query persist_path top_k) = 0 := by
    rw [tokensWithoutSearchRaw_eq_sum_toFinset]
    exact hzero
  rw [search_with_stats_nonempty env query persist_path top_k hne]
  show (if tokensWithoutSearchRaw env (search_code env query persist_path top_k) = 0
        then 500 * max 3 ((resultPaths (search_code env query persist_path top_k)).length : Int)
        else tokensWithoutSearchRaw env (search_code env query persist_path top_k)) = _
  rw [if_pos hz, card_toFinset_rawPaths]

/-- C4 witness: one unreadable file path gives the heuristic value. -/
theorem search_with_stats_heuristic_witness :
    (search_code_with_stats envOneResult "q" "p" 5).2.tokens_without_search =
      500 * max 3 (((rawPaths (search_code envOneResult "q" "p" 5)).toFinset.card : Int)) :=
  search_with_stats_heuristic envOneResult "q" "p" 5 (by decide)
    (by rw [← tokensWithoutSearchRaw_eq_sum_toFinset]; decide)

end WashedMCP
